import Mathlib

/-!
Verification of the Sidbot-V2 signal-lifecycle and position-risk engine.

Shallow embedding notes:
* Prices, RSI values and quantities are modelled as rationals (`ℚ`), which
  represent the Python floats exactly on all inputs of interest.
* `direction` / `side` values are modelled as `String`, exactly as the Python
  code compares them (`direction == 'LONG'` etc.), so that behaviour on
  unrecognized direction strings is captured faithfully.
* Values produced by the external `ta` indicator library (RSI series, ATR) and
  by pandas resampling are passed in as parameters: the repository treats
  those libraries as black boxes and only branches on their outputs.
* Database reads of nullable numeric columns use Python truthiness
  (`float(x) if row.get(x) else None`); `truthy` mirrors that, mapping both
  SQL NULL and the value 0 to `none`.
-/

namespace Sidbot

/-- Python truthiness applied to a nullable numeric column:
`float(v) if row.get(col) else None` maps both NULL and 0 to `None`. -/
def truthy : Option ℚ → Option ℚ
  | some v => if v = 0 then none else some v
  | none => none

/-! ## Configuration constants (config.py) -/

def RSI_EXIT_TARGET : ℚ := 50
def ATR_MULTIPLIER : ℚ := 3
def RSI_PERIOD : ℕ := 14
def RSI_EXTREME_OVERSOLD : ℚ := 30
def RSI_EXTREME_OVERBOUGHT : ℚ := 70
def RSI_MOMENTUM_ROOM_LONG : ℚ := 45
def RSI_MOMENTUM_ROOM_SHORT : ℚ := 55
def RISK_PER_TRADE : ℚ := 1/100

/-! ## risk.py -/

/-- `risk.calculate_atr_stop(df, direction)`: the initial ATR stop at entry.
`atr` and `curr_price` stand for the values the function extracts from `df`
via the external `AverageTrueRange` indicator and `df['close'].iloc[-1]`. -/
def calculate_atr_stop (atr curr_price : ℚ) (direction : String) : ℚ :=
  if direction = "LONG" then curr_price - atr * ATR_MULTIPLIER
  else curr_price + atr * ATR_MULTIPLIER

/-- `risk.calculate_ratchet_stop(current_stop, df, direction)`.
`atr` and `curr_price` stand for the values extracted from `df`.
Note the source uses `if direction == 'LONG': ... else: ...`, so every
non-`LONG` direction takes the SHORT branch. -/
def calculate_ratchet_stop (current_stop atr curr_price : ℚ) (direction : String) : ℚ :=
  if direction = "LONG" then
    max current_stop (curr_price - atr * ATR_MULTIPLIER)
  else
    min current_stop (curr_price + atr * ATR_MULTIPLIER)

/-- `risk.calculate_sid_stop_loss(extreme_price, direction)`.
`x.den = 1` is exactly Python's `float.is_integer()` for the rationals that
represent the stored prices. -/
def calculate_sid_stop_loss (extreme_price : Option ℚ) (direction : String) : Option ℚ :=
  match extreme_price with
  | none => none
  | some x =>
    if direction = "SHORT" then
      some (if x.den = 1 then x + 1 else (⌈x⌉ : ℚ))
    else if direction = "LONG" then
      some (if x.den = 1 then x - 1 else (⌊x⌋ : ℚ))
    else
      none

/-- `risk.calculate_position_size(equity, risk_percent, entry_price, stop_loss)`. -/
def calculate_position_size (equity risk_percent entry_price stop_loss : ℚ) : ℤ :=
  let risk_amount := equity * risk_percent
  let risk_per_share := |entry_price - stop_loss|
  if risk_per_share = 0 then 0
  else ⌊risk_amount / risk_per_share⌋

/-! ## exit.py — the per-position monitoring cycle

`monitor_and_execute_exits` loops over open broker positions; for each it
reads the watchlist row once, computes RSI values, and then runs the early
exit gate, the exit-strategy branch and the ratchet.  `monitorStep` embeds the
body of that loop for one position.  Side effects (orders and database
writes) are captured, in program order, as an `ExitAct` list; the updated
watchlist row is threaded through so a run over several cycles can be
modelled (`runTrace`). -/

/-- `exit.check_momentum_exit(side, curr_rsi, prev_rsi)`.  The source uses
`if side == 'LONG': ... else: # SHORT`, so every non-`LONG` side takes the
SHORT branch. -/
def check_momentum_exit (side : String) (curr_rsi prev_rsi : ℚ) : Bool :=
  if side = "LONG" then
    decide (curr_rsi ≥ RSI_EXIT_TARGET) && decide (curr_rsi < prev_rsi)
  else
    decide (curr_rsi ≤ RSI_EXIT_TARGET) && decide (curr_rsi > prev_rsi)

/-- The side effects the monitoring cycle can perform for one symbol:
market orders, watchlist-row writes and broker stop-order replacement. -/
inductive ExitAct where
  /-- `submit_order(MarketOrderRequest(qty, exit_side))` — a (partial or full)
  close of `q` shares. -/
  | close (q : ℚ)
  /-- watchlist update `{"is_active": False}`. -/
  | deactivate
  /-- watchlist update field `{"partial_exit_done": True}`. -/
  | markPartialDone
  /-- watchlist update field `{"stop_loss": v}`. -/
  | setStop (v : ℚ)
  /-- `replace_order_by_id(..., ReplaceOrderRequest(stop_price=v))` on the
  open stop order. -/
  | replaceStop (v : ℚ)
deriving DecidableEq, Repr

/-- The watchlist row fields read and written by the exit monitor.
`exit_strategy` / `stop_loss_strategy` are nullable text columns; the code
compares them against `"MOMENTUM"` / `"ATR_TRAIL"` (with `.get` defaults
`'FIXED'` / `'FIXED_WHOLE'`, under which any non-matching value falls into
the default branch, exactly as `≠ some "MOMENTUM"` does here). -/
structure SignalRec where
  exit_strategy : Option String
  stop_loss_strategy : Option String
  stop_loss : Option ℚ
  fill_price : Option ℚ
  partial_exit_done : Bool
  is_active : Bool
deriving DecidableEq, Repr

/-- Configuration read by the exit monitor (`config.EARLY_EXIT_ON_RSI_REVERSAL`). -/
structure ExitCfg where
  earlyExitOnRsiReversal : Bool
deriving DecidableEq, Repr

/-- `at_rsi_target` in `monitor_and_execute_exits`. -/
def atTarget (side : String) (curr_rsi : ℚ) : Bool :=
  (side = "LONG" && decide (curr_rsi ≥ RSI_EXIT_TARGET)) ||
  (side = "SHORT" && decide (curr_rsi ≤ RSI_EXIT_TARGET))

/-- `two_day_reversal` in the early-exit gate. -/
def twoDayReversal (side : String) (curr prev prev2 : ℚ) : Bool :=
  (side = "LONG" && decide (curr < prev) && decide (prev < prev2)) ||
  (side = "SHORT" && decide (curr > prev) && decide (prev > prev2))

/-- The guard of the early-exit block: toggle enabled, not at the RSI target,
no partial exit done, and a two-consecutive-bar reversal. -/
def earlyExitCond (cfg : ExitCfg) (side : String) (rec : SignalRec)
    (curr prev prev2 : ℚ) : Bool :=
  cfg.earlyExitOnRsiReversal && !(atTarget side curr) && !rec.partial_exit_done &&
    twoDayReversal side curr prev prev2

/-- MOMENTUM Phase 1 (exit.py lines 106–137): partial close of `⌊qty/2⌋` when
positive, then the break-even relocation if `fill_price` is present, else
only the `partial_exit_done` bookkeeping. `hasOpenStop` abstracts whether the
broker order scan finds an open stop order for the symbol. -/
def momentumPhase1 (qty : ℚ) (fill : Option ℚ) (hasOpenStop : Bool)
    (rec : SignalRec) : List ExitAct × SignalRec :=
  let partial_qty : ℤ := ⌊qty / 2⌋
  let partialActs : List ExitAct :=
    if 0 < partial_qty then [.close (partial_qty : ℚ)] else []
  match fill with
  | some f =>
    (partialActs ++ [.markPartialDone, .setStop f] ++
       (if hasOpenStop then [.replaceStop f] else []),
     { rec with partial_exit_done := true, stop_loss := some f })
  | none =>
    (partialActs ++ [.markPartialDone],
     { rec with partial_exit_done := true })

/-- The ratchet block (exit.py step 5).  `slStrat` and `storedStop` are the
values read at the top of the cycle (the source does not re-read the row
after the phase-1 write), while the row `rec` being written may already carry
the phase-1 updates. -/
def ratchetPhase (slStrat : Option String) (storedStop : Option ℚ)
    (atr curr_price : ℚ) (side : String) (hasOpenStop : Bool)
    (rec : SignalRec) : List ExitAct × SignalRec :=
  if slStrat = some "ATR_TRAIL" then
    match storedStop with
    | some s =>
      let new_stop := calculate_ratchet_stop s atr curr_price side
      if new_stop ≠ s then
        ([.setStop new_stop] ++ (if hasOpenStop then [.replaceStop new_stop] else []),
         { rec with stop_loss := some new_stop })
      else ([], rec)
    | none => ([], rec)
  else ([], rec)

/-- One monitoring cycle for one open position (the body of the position loop
in `monitor_and_execute_exits`): early-exit gate, then the MOMENTUM/FIXED
branch, then the ratchet unless the position was closed (`continue`). -/
def monitorStep (cfg : ExitCfg) (side : String) (qty : ℚ) (rec : SignalRec)
    (curr prev prev2 atr curr_price : ℚ) (hasOpenStop : Bool) :
    List ExitAct × SignalRec :=
  let storedStop := truthy rec.stop_loss
  if earlyExitCond cfg side rec curr prev prev2 then
    ([.close qty, .deactivate], { rec with is_active := false })
  else if rec.exit_strategy = some "MOMENTUM" then
    let fill := truthy rec.fill_price
    if !rec.partial_exit_done && atTarget side curr then
      let p1 := momentumPhase1 qty fill hasOpenStop rec
      let p2 := ratchetPhase rec.stop_loss_strategy storedStop atr curr_price
        side hasOpenStop p1.2
      (p1.1 ++ p2.1, p2.2)
    else if rec.partial_exit_done && check_momentum_exit side curr prev then
      ([.close qty, .deactivate], { rec with is_active := false })
    else
      ratchetPhase rec.stop_loss_strategy storedStop atr curr_price side
        hasOpenStop rec
  else
    if atTarget side curr then
      ([.close qty, .deactivate], { rec with is_active := false })
    else
      ratchetPhase rec.stop_loss_strategy storedStop atr curr_price side
        hasOpenStop rec

/-- The sequence of persisted `stop_loss` values written during a cycle, in
program order. -/
def stopWrites (acts : List ExitAct) : List ℚ :=
  acts.filterMap fun a =>
    match a with
    | .setStop v => some v
    | _ => none

/-- The market-data inputs of one monitoring cycle: the three most recent RSI
readings, the ATR value, the current close, and whether the broker order scan
finds an open stop order. -/
structure CycleIn where
  curr : ℚ
  prev : ℚ
  prev2 : ℚ
  atr : ℚ
  price : ℚ
  hasOpenStop : Bool
deriving DecidableEq, Repr

/-- Running the monitor over successive cycles.  A position the monitor has
closed (`is_active = false`) no longer appears in the broker position list,
so such cycles perform no actions. -/
def runTrace (cfg : ExitCfg) (side : String) (qty : ℚ) :
    SignalRec → List CycleIn → List (List ExitAct)
  | _, [] => []
  | rec, c :: cs =>
    if rec.is_active then
      let out := monitorStep cfg side qty rec c.curr c.prev c.prev2 c.atr
        c.price c.hasOpenStop
      out.1 :: runTrace cfg side qty out.2 cs
    else
      [] :: runTrace cfg side qty rec cs

/-- Marks the first element of a list satisfying `p` (and nothing after it):
the expected firing pattern of MOMENTUM phase 1. -/
def markFirst (p : α → Bool) : List α → List Bool
  | [] => []
  | a :: as => if p a then true :: as.map (fun _ => false) else false :: markFirst p as

/-! ## scanner.py — validation gate and extreme-price tracking -/

/-- `scanner.calculate_weekly_rsi(df_daily, window=RSI_PERIOD)`.
`weeklyCloses` stands for the closes of pandas' `W-MON` resample of the daily
frame, and `rsiFn` for the external `ta.momentum.RSIIndicator` computation;
the function's own logic is the length guard: fewer than 14 weekly points
yields `None`. -/
def calculate_weekly_rsi (rsiFn : List ℚ → List ℚ) (weeklyCloses : List ℚ) :
    Option (List ℚ) :=
  if weeklyCloses.length < RSI_PERIOD then none else some (rsiFn weeklyCloses)

/-- `series.iloc[-1]` on a nonempty list. -/
def ilocLast (s : List ℚ) : ℚ := s.getLastD 0

/-- `series.iloc[-2]` on a list of length ≥ 2. -/
def ilocPrev (s : List ℚ) : ℚ := s.dropLast.getLastD 0

/-- The direction-aware slope test used for all three indicators in
`validate_staged_signals`: `last > prev if direction == 'LONG' else
last < prev`. -/
def slopeTurning (direction : String) (last prevv : ℚ) : Bool :=
  if direction = "LONG" then decide (last > prevv) else decide (last < prevv)

/-- `w_rsi_turning` in `validate_staged_signals`: `False` unless the weekly
RSI series exists and has at least two points. -/
def w_rsi_turning (direction : String) (weeklyRsi : Option (List ℚ)) : Bool :=
  match weeklyRsi with
  | some s =>
    if 2 ≤ s.length then slopeTurning direction (ilocLast s) (ilocPrev s)
    else false
  | none => false

/-- The staged-signal fields `validate_staged_signals` can write. -/
structure StagedSig where
  is_ready : Bool
  trailEvent : Option String
deriving DecidableEq, Repr

/-- One signal's pass through `validate_staged_signals`: the earnings
blackout `continue`, the `< 50`-bars `continue`, then the three slope checks;
the row is written only when all three align.  `earningsBlocked` abstracts
the earnings-calendar comparison and `enoughData` the bar-count guard;
`dLast/dPrev` and `mLast/mPrev` are the last two points of the external daily
RSI series and MACD-line series. -/
def validateStep (earningsBlocked enoughData : Bool) (direction : String)
    (dLast dPrev : ℚ) (weeklyRsi : Option (List ℚ)) (mLast mPrev : ℚ)
    (sig : StagedSig) : StagedSig :=
  if earningsBlocked then sig
  else if !enoughData then sig
  else
    let d_rsi_turning := slopeTurning direction dLast dPrev
    let w_turn := w_rsi_turning direction weeklyRsi
    let macd_turning := slopeTurning direction mLast mPrev
    if d_rsi_turning && w_turn && macd_turning then
      { is_ready := true, trailEvent := some "Alignments Confirmed" }
    else sig

/-- `scanner.update_staged_extreme_prices`, per watchlist entry: the
post-update `extreme_price` together with `update_needed`.  The stored value
is read through Python truthiness; when no update is needed the row keeps its
original value. -/
def trackerStep (direction : String) (stored : Option ℚ) (high low : ℚ) :
    Option ℚ × Bool :=
  let stored_extreme := truthy stored
  if direction = "LONG" then
    match stored_extreme with
    | none => (some low, true)
    | some s => if low < s then (some low, true) else (stored, false)
  else if direction = "SHORT" then
    match stored_extreme with
    | none => (some high, true)
    | some s => if high > s then (some high, true) else (stored, false)
  else (stored, false)

/-! ## get_signals.py — discovery -/

/-- The direction filter in `populate_sid_extremes` (step 4). -/
def discoveryDirection (curr_rsi : ℚ) : Option String :=
  if curr_rsi ≤ RSI_EXTREME_OVERSOLD then some "LONG"
  else if curr_rsi ≥ RSI_EXTREME_OVERBOUGHT then some "SHORT"
  else none

/-- The `extreme_price` field of the payload upserted by
`populate_sid_extremes` (step 5): the latest bar's low (LONG) or high
(SHORT), or no upsert at all when no extreme is hit. -/
def discoveryUpsertExtreme (curr_rsi low high : ℚ) : Option ℚ :=
  match discoveryDirection curr_rsi with
  | some d => some (if d = "LONG" then low else high)
  | none => none

/-- The post-upsert `extreme_price` of a row hit by the discovery upsert
(`upsert(payload, on_conflict="symbol")` replaces the column): the payload
value, regardless of the previously stored extreme. -/
def upsertPostExtreme (_priorStored : Option ℚ) (payloadExtreme : ℚ) : ℚ :=
  payloadExtreme

/-! ## enter.py — the per-signal entry step -/

/-- Watchlist writes performed by `execute_sid_entries` for one signal. -/
inductive EnterAct where
  /-- update `{"stop_loss_strategy", "exit_strategy", "stop_loss"}`. -/
  | updateStrategies (stop : Option ℚ)
  /-- update `{"is_active": True, "fill_price": entry}` after a filled order. -/
  | setActiveFill (fill : ℚ)
  /-- `delete()` of the row — never emitted by the source. -/
  | deleteSignal
deriving DecidableEq, Repr

/-- The RSI momentum-room re-check at entry time: `True` means the signal is
skipped (`continue`) this run. -/
def enterRoomBlocked (direction : String) (curr_rsi : ℚ) : Bool :=
  (direction = "LONG" && decide (curr_rsi > RSI_MOMENTUM_ROOM_LONG)) ||
  (direction = "SHORT" && decide (curr_rsi < RSI_MOMENTUM_ROOM_SHORT))

/-- One ready signal's pass through `execute_sid_entries` (after the
shorting-permission and already-open checks): the watchlist writes it
performs, in order.  `none` models the uncaught `TypeError` the source would
raise if `calculate_position_size` were reached with a null stop.  `atrStop`
stands for `calculate_atr_stop(df, direction)`; `entry` for the live trade
price fetched from the broker. -/
def enterSignalStep (direction : String) (curr_rsi : ℚ) (extreme : Option ℚ)
    (equity entry atrStop : ℚ) (slStrat : String) :
    Option (List EnterAct) :=
  if enterRoomBlocked direction curr_rsi then some []
  else
    let stop_loss :=
      if slStrat = "ATR_TRAIL" then some atrStop
      else calculate_sid_stop_loss extreme direction
    match stop_loss with
    | none => none
    | some st =>
      let qty := calculate_position_size equity RISK_PER_TRADE entry st
      if qty ≤ 0 then some [.updateStrategies (some st)]
      else some [.updateStrategies (some st), .setActiveFill entry]

end Sidbot

namespace Sidbot

/-! ## Claims C3 and C4 -/

lemma den_6537_div_100_ne_one : (6537/100 : ℚ).den ≠ 1 := by
  intro h
  rw [Rat.den_eq_one_iff] at h
  have h100 : (100 : ℚ) * (6537/100 : ℚ).num = 6537 := by
    rw [h]; norm_num
  have : (100 * (6537/100 : ℚ).num : ℤ) = 6537 := by exact_mod_cast h100
  omega

lemma den_3562_div_100_ne_one : (3562/100 : ℚ).den ≠ 1 := by
  intro h
  rw [Rat.den_eq_one_iff] at h
  have h100 : (100 : ℚ) * (3562/100 : ℚ).num = 3562 := by
    rw [h]; norm_num
  have : (100 * (3562/100 : ℚ).num : ℤ) = 3562 := by exact_mod_cast h100
  omega

lemma ceil_6537_div_100 : ⌈(6537/100 : ℚ)⌉ = 66 := by
  rw [Int.ceil_eq_iff]
  constructor <;> norm_num

lemma floor_3562_div_100 : ⌊(3562/100 : ℚ)⌋ = 35 := by
  rw [Int.floor_eq_iff]
  constructor <;> norm_num

/-- **C3.** For every non-null extreme_price and valid direction, the
FIXED_WHOLE stop equals the extreme rounded to the next whole currency unit in
the adverse direction: SHORT yields `⌈x⌉`, except an already-integral extreme
yields `x + 1`; LONG yields `⌊x⌉`-floor, except an already-integral extreme
yields `x - 1`; with the four concrete examples from the spec. -/
theorem C3_fixed_whole_stop (x : ℚ) :
    (x.den = 1 → calculate_sid_stop_loss (some x) "SHORT" = some (x + 1)) ∧
    (x.den ≠ 1 → calculate_sid_stop_loss (some x) "SHORT" = some (⌈x⌉ : ℚ)) ∧
    (x.den = 1 → calculate_sid_stop_loss (some x) "LONG" = some (x - 1)) ∧
    (x.den ≠ 1 → calculate_sid_stop_loss (some x) "LONG" = some (⌊x⌋ : ℚ)) ∧
    (x.den = 1 ↔ ∃ n : ℤ, x = (n : ℚ)) ∧
    calculate_sid_stop_loss (some 65) "SHORT" = some 66 ∧
    calculate_sid_stop_loss (some (6537/100)) "SHORT" = some 66 ∧
    calculate_sid_stop_loss (some 35) "LONG" = some 34 ∧
    calculate_sid_stop_loss (some (3562/100)) "LONG" = some 35 := by
  refine ⟨?_, ?_, ?_, ?_, ?_, ?_, ?_, ?_, ?_⟩
  · intro h; simp [calculate_sid_stop_loss, h]
  · intro h; simp [calculate_sid_stop_loss, h]
  · intro h; simp [calculate_sid_stop_loss, h]
  · intro h; simp [calculate_sid_stop_loss, h]
  · constructor
    · intro h
      exact ⟨x.num, (Rat.coe_int_num_of_den_eq_one h).symm⟩
    · rintro ⟨n, rfl⟩
      exact Rat.den_intCast n
  · norm_num [calculate_sid_stop_loss]
  · norm_num [calculate_sid_stop_loss, den_6537_div_100_ne_one, ceil_6537_div_100]
  · norm_num [calculate_sid_stop_loss]
    decide
  · have hne : ("LONG" : String) ≠ "SHORT" := by decide
    norm_num [calculate_sid_stop_loss, den_3562_div_100_ne_one, floor_3562_div_100, hne]

/-- Witness for C3 at the concrete integral input 65 (SHORT) and the
non-integral input 65.37. -/
theorem C3_fixed_whole_stop_witness :
    calculate_sid_stop_loss (some 65) "SHORT" = some (65 + 1) ∧
    calculate_sid_stop_loss (some (6537/100)) "SHORT" = some ((⌈(6537/100 : ℚ)⌉ : ℤ) : ℚ) := by
  refine ⟨(C3_fixed_whole_stop 65).1 (by simp), ?_⟩
  exact (C3_fixed_whole_stop (6537/100)).2.1 den_6537_div_100_ne_one

/-- **C4.** Position size is `⌊(equity × risk) / |entry − stop|⌋`, and a zero
denominator yields size 0 (a defined skip, not an error); the spec's concrete
example gives 500. -/
theorem C4_position_size (e r p s : ℚ) :
    (p = s → calculate_position_size e r p s = 0) ∧
    (p ≠ s → calculate_position_size e r p s = ⌊(e * r) / |p - s|⌋) ∧
    calculate_position_size 100000 (1/100) 50 48 = 500 := by
  have hconc : calculate_position_size 100000 (1/100) 50 48 = 500 := by
    have h2 : |(50 : ℚ) - 48| = 2 := by norm_num
    rw [calculate_position_size]
    simp only [h2]
    norm_num
  refine ⟨?_, ?_, hconc⟩
  · intro h; subst h; simp [calculate_position_size]
  · intro h
    have habs : |p - s| ≠ 0 := by
      simpa [sub_eq_zero] using h
    simp [calculate_position_size, habs]

/-- Witness for C4 at equity 100000, risk 1%, entry 50, stop 48 (general
formula) and entry = stop = 50 (zero-denominator case). -/
theorem C4_position_size_witness :
    calculate_position_size 100000 (1/100) 50 50 = 0 ∧
    calculate_position_size 100000 (1/100) 50 48 = ⌊((100000 * (1/100)) / |50 - 48| : ℚ)⌋ := by
  refine ⟨(C4_position_size 100000 (1/100) 50 50).1 rfl, ?_⟩
  exact (C4_position_size 100000 (1/100) 50 48).2.1 (by norm_num)

/-! ## Claim C10 — behaviour on unrecognized directions -/

/-- **C10, counterexample.** The claim states that for a direction outside
{LONG, SHORT} the ratchet-stop calculation and the momentum-exit check take
no directional action and do not silently apply the SHORT branch.  In fact
both use `if direction == 'LONG': ... else: ...`: with direction `"FOO"`,
`calculate_ratchet_stop(100, atr=1, price=57)` returns 60 — exactly the SHORT
result `min(100, 57 + 3)` and not the no-op 100 — and
`check_momentum_exit("FOO", 40, 30)` returns `True`, exactly the SHORT
reversal signal. -/
theorem C10_invalid_direction_counterexample :
    calculate_ratchet_stop 100 1 57 "FOO" = 60 ∧
    calculate_ratchet_stop 100 1 57 "SHORT" = 60 ∧
    calculate_ratchet_stop 100 1 57 "FOO" ≠ 100 ∧
    check_momentum_exit "FOO" 40 30 = true ∧
    check_momentum_exit "SHORT" 40 30 = true := by
  have h60 : (57 : ℚ) + 1 * ATR_MULTIPLIER = 60 := by
    norm_num [ATR_MULTIPLIER]
  have hFoo : ("FOO" : String) ≠ "LONG" := by decide
  have hShort : ("SHORT" : String) ≠ "LONG" := by decide
  refine ⟨?_, ?_, ?_, ?_, ?_⟩
  · simp only [calculate_ratchet_stop, h60, hFoo]
    norm_num
  · simp only [calculate_ratchet_stop, h60, hShort]
    norm_num
  · simp only [calculate_ratchet_stop, h60, hFoo]
    norm_num
  · simp only [check_momentum_exit, hFoo]
    norm_num [RSI_EXIT_TARGET]
  · simp only [check_momentum_exit, hShort]
    norm_num [RSI_EXIT_TARGET]

/-- **C10, amended.** For every direction outside {LONG, SHORT}: the
FIXED_WHOLE stop calculation does return null (as claimed), but the
ratchet-stop calculation and the momentum-exit check behave exactly as for
SHORT rather than performing a no-op. -/
theorem C10_invalid_direction_behaviour (d : String) (hL : d ≠ "LONG")
    (hS : d ≠ "SHORT") (x s atr price curr prev : ℚ) :
    calculate_sid_stop_loss (some x) d = none ∧
    calculate_ratchet_stop s atr price d = calculate_ratchet_stop s atr price "SHORT" ∧
    check_momentum_exit d curr prev = check_momentum_exit "SHORT" curr prev := by
  refine ⟨?_, ?_, ?_⟩
  · simp [calculate_sid_stop_loss, hL, hS]
  · simp [calculate_ratchet_stop, hL]
  · simp [check_momentum_exit, hL]

/-- Witness for C10 at the concrete direction `"FOO"`. -/
theorem C10_invalid_direction_behaviour_witness :
    calculate_sid_stop_loss (some 10) "FOO" = none ∧
    calculate_ratchet_stop 100 1 57 "FOO" = calculate_ratchet_stop 100 1 57 "SHORT" ∧
    check_momentum_exit "FOO" 40 30 = check_momentum_exit "SHORT" 40 30 :=
  C10_invalid_direction_behaviour "FOO" (by decide) (by decide) 10 100 1 57 40 30

/-! ## Structural lemmas about the monitoring cycle -/

lemma ratchetPhase_snd_partialFlag (slS : Option String) (st : Option ℚ)
    (a p : ℚ) (sd : String) (h : Bool) (rec : SignalRec) :
    (ratchetPhase slS st a p sd h rec).2.partial_exit_done = rec.partial_exit_done := by
  cases st with
  | none =>
    by_cases hs : slS = some "ATR_TRAIL" <;> simp [ratchetPhase, hs]
  | some s =>
    by_cases hs : slS = some "ATR_TRAIL" <;>
      by_cases hne : calculate_ratchet_stop s a p sd = s <;>
        simp [ratchetPhase, hs, hne]

lemma ratchetPhase_snd_exit (slS : Option String) (st : Option ℚ)
    (a p : ℚ) (sd : String) (h : Bool) (rec : SignalRec) :
    (ratchetPhase slS st a p sd h rec).2.exit_strategy = rec.exit_strategy := by
  cases st with
  | none =>
    by_cases hs : slS = some "ATR_TRAIL" <;> simp [ratchetPhase, hs]
  | some s =>
    by_cases hs : slS = some "ATR_TRAIL" <;>
      by_cases hne : calculate_ratchet_stop s a p sd = s <;>
        simp [ratchetPhase, hs, hne]

lemma ratchetPhase_snd_active (slS : Option String) (st : Option ℚ)
    (a p : ℚ) (sd : String) (h : Bool) (rec : SignalRec) :
    (ratchetPhase slS st a p sd h rec).2.is_active = rec.is_active := by
  cases st with
  | none =>
    by_cases hs : slS = some "ATR_TRAIL" <;> simp [ratchetPhase, hs]
  | some s =>
    by_cases hs : slS = some "ATR_TRAIL" <;>
      by_cases hne : calculate_ratchet_stop s a p sd = s <;>
        simp [ratchetPhase, hs, hne]

lemma ratchetPhase_no_markPartialDone (slS : Option String) (st : Option ℚ)
    (a p : ℚ) (sd : String) (h : Bool) (rec : SignalRec) :
    ExitAct.markPartialDone ∉ (ratchetPhase slS st a p sd h rec).1 := by
  cases st with
  | none =>
    by_cases hs : slS = some "ATR_TRAIL" <;> simp [ratchetPhase, hs]
  | some s =>
    by_cases hs : slS = some "ATR_TRAIL" <;>
      by_cases hne : calculate_ratchet_stop s a p sd = s <;>
        cases h <;> simp [ratchetPhase, hs, hne]

lemma earlyExitCond_false_of_atTarget {cfg : ExitCfg} {side : String}
    {rec : SignalRec} {curr prev prev2 : ℚ} (h : atTarget side curr = true) :
    earlyExitCond cfg side rec curr prev prev2 = false := by
  simp [earlyExitCond, h]

lemma earlyExitCond_false_of_done {cfg : ExitCfg} {side : String}
    {rec : SignalRec} {curr prev prev2 : ℚ} (h : rec.partial_exit_done = true) :
    earlyExitCond cfg side rec curr prev prev2 = false := by
  simp [earlyExitCond, h]

lemma markPartialDone_not_in_of_done (cfg : ExitCfg) (side : String) (qty : ℚ)
    (rec : SignalRec) (curr prev prev2 atr price : ℚ) (hso : Bool)
    (h : rec.partial_exit_done = true) :
    ExitAct.markPartialDone ∉ (monitorStep cfg side qty rec curr prev prev2 atr price hso).1 := by
  unfold monitorStep
  rw [earlyExitCond_false_of_done h]
  by_cases hM : rec.exit_strategy = some "MOMENTUM"
  · by_cases hc : check_momentum_exit side curr prev = true
    · simp [hM, h, hc]
    · simp only [Bool.not_eq_true] at hc
      simp [hM, h, hc, ratchetPhase_no_markPartialDone]
  · by_cases ht : atTarget side curr = true
    · simp [hM, ht]
    · simp only [Bool.not_eq_true] at ht
      simp [hM, ht, ratchetPhase_no_markPartialDone]

lemma monitorStep_partial_done_of_done (cfg : ExitCfg) (side : String) (qty : ℚ)
    (rec : SignalRec) (curr prev prev2 atr price : ℚ) (hso : Bool)
    (h : rec.partial_exit_done = true) :
    (monitorStep cfg side qty rec curr prev prev2 atr price hso).2.partial_exit_done = true := by
  unfold monitorStep
  rw [earlyExitCond_false_of_done h]
  by_cases hM : rec.exit_strategy = some "MOMENTUM"
  · by_cases hc : check_momentum_exit side curr prev = true
    · simp [hM, h, hc]
    · simp only [Bool.not_eq_true] at hc
      simp [hM, h, hc, ratchetPhase_snd_partialFlag]
  · by_cases ht : atTarget side curr = true
    · simp [hM, ht, h]
    · simp only [Bool.not_eq_true] at ht
      simp [hM, ht, ratchetPhase_snd_partialFlag, h]

/-! ## Claim C8 — the early-exit override -/

/-- **C8.** The early-exit override fires exactly when the toggle is enabled,
the RSI exit target is not yet reached, no partial exit has occurred, and RSI
has moved against the trade on both of the two prior comparisons (strict
monotonicity over the three readings, as spelled out for LONG and SHORT);
when it fires, the cycle performs exactly a full close and a deactivation —
no FIXED exit, no MOMENTUM phase, no stop write and no stop replacement run
for the symbol in that cycle. -/
theorem C8_early_exit_override (cfg : ExitCfg) (side : String) (qty : ℚ)
    (rec : SignalRec) (curr prev prev2 atr price : ℚ) (hso : Bool) :
    (earlyExitCond cfg side rec curr prev prev2 = true ↔
      cfg.earlyExitOnRsiReversal = true ∧ atTarget side curr = false ∧
      rec.partial_exit_done = false ∧ twoDayReversal side curr prev prev2 = true) ∧
    (earlyExitCond cfg side rec curr prev prev2 = true →
      monitorStep cfg side qty rec curr prev prev2 atr price hso =
        ([.close qty, .deactivate], { rec with is_active := false })) ∧
    (twoDayReversal "LONG" curr prev prev2 = true ↔ curr < prev ∧ prev < prev2) ∧
    (twoDayReversal "SHORT" curr prev prev2 = true ↔ prev < curr ∧ prev2 < prev) := by
  refine ⟨?_, ?_, ?_, ?_⟩
  · simp [earlyExitCond, and_assoc]
  · intro h
    simp [monitorStep, h]
  · simp [twoDayReversal, and_assoc]
  · simp [twoDayReversal, and_assoc]

/-- Witness for C8: with the toggle on, a LONG at RSI 40 after readings
45 → 42 → 40 is fully closed and the cycle is short-circuited. -/
theorem C8_early_exit_override_witness :
    monitorStep ⟨true⟩ "LONG" 7
      { exit_strategy := some "MOMENTUM", stop_loss_strategy := some "ATR_TRAIL",
        stop_loss := some 90, fill_price := some 95, partial_exit_done := false,
        is_active := true }
      40 42 45 1 100 true =
      ([.close 7, .deactivate],
       { exit_strategy := some "MOMENTUM", stop_loss_strategy := some "ATR_TRAIL",
         stop_loss := some 90, fill_price := some 95, partial_exit_done := false,
         is_active := false }) := by
  apply (C8_early_exit_override ⟨true⟩ "LONG" 7 _ 40 42 45 1 100 true).2.1
  simp [earlyExitCond, atTarget, twoDayReversal, RSI_EXIT_TARGET]
  norm_num

/-! ## Claim C9 — phase 1 with a missing fill price -/

/-- **C9.** In MOMENTUM phase 1 with `fill_price` absent, the break-even stop
relocation (both the stored `stop_loss` write and the broker stop
replacement) is skipped, yet `partial_exit_done` is still set in the same
cycle, so phase 1 can never fire again on a later cycle; and the partial
close order is skipped exactly when `⌊qty/2⌋ = 0` while the bookkeeping still
proceeds. -/
theorem C9_phase1_missing_fill (cfg : ExitCfg) (side : String) (qty : ℚ)
    (rec : SignalRec) (curr prev prev2 atr price : ℚ) (hso : Bool)
    (hM : rec.exit_strategy = some "MOMENTUM")
    (hP : rec.partial_exit_done = false)
    (hT : atTarget side curr = true)
    (hF : truthy rec.fill_price = none) :
    (monitorStep cfg side qty rec curr prev prev2 atr price hso).2.partial_exit_done = true ∧
    ExitAct.markPartialDone ∈ (monitorStep cfg side qty rec curr prev prev2 atr price hso).1 ∧
    (momentumPhase1 qty (truthy rec.fill_price) hso rec).1 =
      (if 0 < ⌊qty / 2⌋ then [ExitAct.close ((⌊qty / 2⌋ : ℤ) : ℚ)] else []) ++
        [ExitAct.markPartialDone] ∧
    (∀ v, ExitAct.setStop v ∉ (momentumPhase1 qty (truthy rec.fill_price) hso rec).1) ∧
    (∀ v, ExitAct.replaceStop v ∉ (momentumPhase1 qty (truthy rec.fill_price) hso rec).1) ∧
    (momentumPhase1 qty (truthy rec.fill_price) hso rec).2.stop_loss = rec.stop_loss ∧
    (⌊qty / 2⌋ ≤ 0 → ∀ q, ExitAct.close q ∉ (momentumPhase1 qty (truthy rec.fill_price) hso rec).1) ∧
    (∀ cfg2 c2 p2 pp2 a2 pr2 hso2, ExitAct.markPartialDone ∉
      (monitorStep cfg2 side qty
        (monitorStep cfg side qty rec curr prev prev2 atr price hso).2
        c2 p2 pp2 a2 pr2 hso2).1) := by
  have hstep : monitorStep cfg side qty rec curr prev prev2 atr price hso =
      (let p1 := momentumPhase1 qty (truthy rec.fill_price) hso rec
       let p2 := ratchetPhase rec.stop_loss_strategy (truthy rec.stop_loss) atr price side hso p1.2
       (p1.1 ++ p2.1, p2.2)) := by
    unfold monitorStep
    rw [earlyExitCond_false_of_atTarget hT]
    simp [hM, hP, hT]
  have hp1 : momentumPhase1 qty (truthy rec.fill_price) hso rec =
      ((if 0 < ⌊qty / 2⌋ then [ExitAct.close ((⌊qty / 2⌋ : ℤ) : ℚ)] else []) ++
         [ExitAct.markPartialDone],
       { rec with partial_exit_done := true }) := by
    rw [hF]; rfl
  refine ⟨?_, ?_, ?_, ?_, ?_, ?_, ?_, ?_⟩
  · rw [hstep]
    simp only [hp1]
    rw [ratchetPhase_snd_partialFlag]
  · rw [hstep]
    simp only [hp1]
    simp
  · rw [hp1]
  · intro v
    rw [hp1]
    by_cases hq : 0 < ⌊qty / 2⌋ <;> simp [hq]
  · intro v
    rw [hp1]
    by_cases hq : 0 < ⌊qty / 2⌋ <;> simp [hq]
  · rw [hp1]
  · intro hq q
    rw [hp1]
    simp [not_lt.mpr hq]
  · intro cfg2 c2 p2 pp2 a2 pr2 hso2
    apply markPartialDone_not_in_of_done
    rw [hstep]
    simp only [hp1]
    rw [ratchetPhase_snd_partialFlag]

/-- Witness for C9: a LONG MOMENTUM position of 9 shares at RSI 55 with a
NULL `fill_price`: the partial close of 4 shares and the bookkeeping happen,
no stop write does. -/
theorem C9_phase1_missing_fill_witness :
    (monitorStep ⟨false⟩ "LONG" 9
      { exit_strategy := some "MOMENTUM", stop_loss_strategy := none,
        stop_loss := none, fill_price := none, partial_exit_done := false,
        is_active := true }
      55 54 53 1 100 false).2.partial_exit_done = true ∧
    ExitAct.markPartialDone ∈ (monitorStep ⟨false⟩ "LONG" 9
      { exit_strategy := some "MOMENTUM", stop_loss_strategy := none,
        stop_loss := none, fill_price := none, partial_exit_done := false,
        is_active := true }
      55 54 53 1 100 false).1 := by
  have h := C9_phase1_missing_fill ⟨false⟩ "LONG" 9
    { exit_strategy := some "MOMENTUM", stop_loss_strategy := none,
      stop_loss := none, fill_price := none, partial_exit_done := false,
      is_active := true }
    55 54 53 1 100 false rfl rfl
    (by simp [atTarget, RSI_EXIT_TARGET]; norm_num) rfl
  exact ⟨h.1, h.2.1⟩

/-! ## Claim C2 — the two MOMENTUM phases -/

lemma momentumPhase1_snd_partialFlag (q : ℚ) (fill : Option ℚ) (hso : Bool)
    (rec : SignalRec) :
    (momentumPhase1 q fill hso rec).2.partial_exit_done = true := by
  cases fill <;> simp [momentumPhase1]

lemma momentumPhase1_snd_exit (q : ℚ) (fill : Option ℚ) (hso : Bool)
    (rec : SignalRec) :
    (momentumPhase1 q fill hso rec).2.exit_strategy = rec.exit_strategy := by
  cases fill <;> simp [momentumPhase1]

lemma momentumPhase1_snd_active (q : ℚ) (fill : Option ℚ) (hso : Bool)
    (rec : SignalRec) :
    (momentumPhase1 q fill hso rec).2.is_active = rec.is_active := by
  cases fill <;> simp [momentumPhase1]

lemma momentumPhase1_markPartialDone (q : ℚ) (fill : Option ℚ) (hso : Bool)
    (rec : SignalRec) :
    ExitAct.markPartialDone ∈ (momentumPhase1 q fill hso rec).1 := by
  cases fill <;> cases hso <;>
    by_cases hq : 0 < ⌊q / 2⌋ <;> simp [momentumPhase1, hq]

lemma momentumPhase1_no_deactivate (q : ℚ) (fill : Option ℚ) (hso : Bool)
    (rec : SignalRec) :
    ExitAct.deactivate ∉ (momentumPhase1 q fill hso rec).1 := by
  cases fill <;> cases hso <;>
    by_cases hq : 0 < ⌊q / 2⌋ <;> simp [momentumPhase1, hq]

lemma ratchetPhase_no_deactivate (slS : Option String) (st : Option ℚ)
    (a p : ℚ) (sd : String) (h : Bool) (rec : SignalRec) :
    ExitAct.deactivate ∉ (ratchetPhase slS st a p sd h rec).1 := by
  cases st with
  | none =>
    by_cases hs : slS = some "ATR_TRAIL" <;> simp [ratchetPhase, hs]
  | some s =>
    by_cases hs : slS = some "ATR_TRAIL" <;>
      by_cases hne : calculate_ratchet_stop s a p sd = s <;>
        cases h <;> simp [ratchetPhase, hs, hne]

lemma ratchetPhase_no_close (slS : Option String) (st : Option ℚ)
    (a p : ℚ) (sd : String) (h : Bool) (rec : SignalRec) (q : ℚ) :
    ExitAct.close q ∉ (ratchetPhase slS st a p sd h rec).1 := by
  cases st with
  | none =>
    by_cases hs : slS = some "ATR_TRAIL" <;> simp [ratchetPhase, hs]
  | some s =>
    by_cases hs : slS = some "ATR_TRAIL" <;>
      by_cases hne : calculate_ratchet_stop s a p sd = s <;>
        cases h <;> simp [ratchetPhase, hs, hne]

lemma earlyExitCond_false_of_toggle {cfg : ExitCfg} {side : String}
    {rec : SignalRec} {curr prev prev2 : ℚ}
    (h : cfg.earlyExitOnRsiReversal = false) :
    earlyExitCond cfg side rec curr prev prev2 = false := by
  simp [earlyExitCond, h]

/-- A cycle in which neither the early exit nor a close nor phase 1 fires
reduces to the ratchet block alone. -/
lemma monitorStep_eq_ratchet (cfg : ExitCfg) (side : String) (qty : ℚ)
    (rec : SignalRec) (curr prev prev2 atr price : ℚ) (hso : Bool)
    (hE : cfg.earlyExitOnRsiReversal = false)
    (hM : rec.exit_strategy = some "MOMENTUM")
    (hP : rec.partial_exit_done = false)
    (hT : atTarget side curr = false) :
    monitorStep cfg side qty rec curr prev prev2 atr price hso =
      ratchetPhase rec.stop_loss_strategy (truthy rec.stop_loss) atr price side
        hso rec := by
  unfold monitorStep
  rw [earlyExitCond_false_of_toggle hE]
  simp [hM, hP, hT]

/-- A MOMENTUM cycle at the target with no partial exit done reduces to
phase 1 followed by the ratchet block. -/
lemma monitorStep_eq_phase1 (cfg : ExitCfg) (side : String) (qty : ℚ)
    (rec : SignalRec) (curr prev prev2 atr price : ℚ) (hso : Bool)
    (hM : rec.exit_strategy = some "MOMENTUM")
    (hP : rec.partial_exit_done = false)
    (hT : atTarget side curr = true) :
    monitorStep cfg side qty rec curr prev prev2 atr price hso =
      ((momentumPhase1 qty (truthy rec.fill_price) hso rec).1 ++
         (ratchetPhase rec.stop_loss_strategy (truthy rec.stop_loss) atr price
           side hso (momentumPhase1 qty (truthy rec.fill_price) hso rec).2).1,
       (ratchetPhase rec.stop_loss_strategy (truthy rec.stop_loss) atr price
         side hso (momentumPhase1 qty (truthy rec.fill_price) hso rec).2).2) := by
  unfold monitorStep
  rw [earlyExitCond_false_of_atTarget hT]
  simp [hM, hP, hT]

/-- A MOMENTUM cycle below the target with no partial exit done yet: no
phase-1 bookkeeping fires, and the row keeps its phase and lifecycle fields. -/
lemma monitorStep_momentum_no_target (cfg : ExitCfg) (side : String) (qty : ℚ)
    (rec : SignalRec) (curr prev prev2 atr price : ℚ) (hso : Bool)
    (hE : cfg.earlyExitOnRsiReversal = false)
    (hM : rec.exit_strategy = some "MOMENTUM")
    (hP : rec.partial_exit_done = false)
    (hT : atTarget side curr = false) :
    ExitAct.markPartialDone ∉ (monitorStep cfg side qty rec curr prev prev2 atr price hso).1 ∧
    (monitorStep cfg side qty rec curr prev prev2 atr price hso).2.partial_exit_done = false ∧
    (monitorStep cfg side qty rec curr prev prev2 atr price hso).2.exit_strategy = rec.exit_strategy ∧
    (monitorStep cfg side qty rec curr prev prev2 atr price hso).2.is_active = rec.is_active := by
  rw [monitorStep_eq_ratchet cfg side qty rec curr prev prev2 atr price hso hE hM hP hT]
  exact ⟨ratchetPhase_no_markPartialDone _ _ _ _ _ _ _,
    by rw [ratchetPhase_snd_partialFlag]; exact hP,
    ratchetPhase_snd_exit _ _ _ _ _ _ _,
    ratchetPhase_snd_active _ _ _ _ _ _ _⟩

/-- A MOMENTUM cycle at the target with no partial exit done: phase 1 fires,
the bookkeeping flips `partial_exit_done`, and the position stays open. -/
lemma monitorStep_momentum_target (cfg : ExitCfg) (side : String) (qty : ℚ)
    (rec : SignalRec) (curr prev prev2 atr price : ℚ) (hso : Bool)
    (hM : rec.exit_strategy = some "MOMENTUM")
    (hP : rec.partial_exit_done = false)
    (hT : atTarget side curr = true) :
    ExitAct.markPartialDone ∈ (monitorStep cfg side qty rec curr prev prev2 atr price hso).1 ∧
    (monitorStep cfg side qty rec curr prev prev2 atr price hso).2.partial_exit_done = true ∧
    (monitorStep cfg side qty rec curr prev prev2 atr price hso).2.exit_strategy = rec.exit_strategy ∧
    (monitorStep cfg side qty rec curr prev prev2 atr price hso).2.is_active = rec.is_active := by
  rw [monitorStep_eq_phase1 cfg side qty rec curr prev prev2 atr price hso hM hP hT]
  refine ⟨?_, ?_, ?_, ?_⟩
  · exact List.mem_append.mpr (Or.inl (momentumPhase1_markPartialDone _ _ _ _))
  · rw [ratchetPhase_snd_partialFlag, momentumPhase1_snd_partialFlag]
  · rw [ratchetPhase_snd_exit, momentumPhase1_snd_exit]
  · rw [ratchetPhase_snd_active, momentumPhase1_snd_active]

/-- After the partial exit is recorded, no later cycle ever emits the phase-1
bookkeeping again. -/
lemma runTrace_flags_after_done (cfg : ExitCfg) (side : String) (qty : ℚ) :
    ∀ (cycles : List CycleIn) (rec : SignalRec),
      rec.partial_exit_done = true →
      (runTrace cfg side qty rec cycles).map
          (fun acts => decide (ExitAct.markPartialDone ∈ acts)) =
        cycles.map (fun _ => false)
  | [], _, _ => rfl
  | c :: cs, rec, h => by
    unfold runTrace
    by_cases hA : rec.is_active = true
    · simp only [hA, if_true, List.map_cons]
      rw [runTrace_flags_after_done cfg side qty cs _
        (monitorStep_partial_done_of_done cfg side qty rec c.curr c.prev c.prev2
          c.atr c.price c.hasOpenStop h)]
      simp [markPartialDone_not_in_of_done cfg side qty rec c.curr c.prev c.prev2
        c.atr c.price c.hasOpenStop h]
    · simp only [Bool.not_eq_true] at hA
      simp only [hA, Bool.false_eq_true, if_false, List.map_cons]
      rw [runTrace_flags_after_done cfg side qty cs rec h]
      simp

/-- The phase-1 firing pattern over a whole monitored run: the bookkeeping
fires exactly at the first cycle whose RSI reaches the target. -/
lemma runTrace_flags_markFirst (cfg : ExitCfg) (side : String) (qty : ℚ)
    (hE : cfg.earlyExitOnRsiReversal = false) :
    ∀ (cycles : List CycleIn) (rec : SignalRec),
      rec.exit_strategy = some "MOMENTUM" →
      rec.partial_exit_done = false →
      rec.is_active = true →
      (runTrace cfg side qty rec cycles).map
          (fun acts => decide (ExitAct.markPartialDone ∈ acts)) =
        markFirst (fun c => atTarget side c.curr) cycles
  | [], _, _, _, _ => rfl
  | c :: cs, rec, hM, hP, hA => by
    unfold runTrace markFirst
    simp only [hA, if_true, List.map_cons]
    by_cases hT : atTarget side c.curr = true
    · simp only [hT, if_true, reduceIte]
      obtain ⟨hmem, hdone, _, _⟩ := monitorStep_momentum_target cfg side qty rec
        c.curr c.prev c.prev2 c.atr c.price c.hasOpenStop hM hP hT
      rw [runTrace_flags_after_done cfg side qty cs _ hdone]
      simp [hmem]
    · simp only [Bool.not_eq_true] at hT
      simp only [hT, Bool.false_eq_true, if_false]
      obtain ⟨hmem, hdone, hexit, hact⟩ := monitorStep_momentum_no_target cfg side
        qty rec c.curr c.prev c.prev2 c.atr c.price c.hasOpenStop hE hM hP hT
      rw [runTrace_flags_markFirst cfg side qty hE cs _
        (by rw [hexit]; exact hM) hdone (by rw [hact]; exact hA)]
      simp [hmem]

/-- **C2.** Under MOMENTUM (early-exit toggle off, as configured): over any
run of monitoring cycles starting with `partial_exit_done = false`, the
phase-1 bookkeeping fires exactly once, at the first cycle whose RSI reaches
the exit target — and at no other cycle; while `partial_exit_done` is false
no full close/deactivation ever happens (phase 2 cannot fire); once
`partial_exit_done` is true, a cycle performs the full close exactly when
`check_momentum_exit` holds, which for LONG requires RSI at/above target AND
falling versus the prior reading (mirrored for SHORT) — reaching the target
alone never triggers phase 2. -/
theorem C2_momentum_two_phases (cfg : ExitCfg) (side : String) (qty : ℚ)
    (rec : SignalRec) (cycles : List CycleIn)
    (hE : cfg.earlyExitOnRsiReversal = false)
    (hM : rec.exit_strategy = some "MOMENTUM")
    (hP : rec.partial_exit_done = false)
    (hA : rec.is_active = true) :
    ((runTrace cfg side qty rec cycles).map
        (fun acts => decide (ExitAct.markPartialDone ∈ acts)) =
      markFirst (fun c => atTarget side c.curr) cycles) ∧
    (∀ (cfg2 : ExitCfg) (rec2 : SignalRec) (curr prev prev2 atr price : ℚ) (hso : Bool),
      rec2.exit_strategy = some "MOMENTUM" → rec2.partial_exit_done = false →
      earlyExitCond cfg2 side rec2 curr prev prev2 = false →
      ExitAct.deactivate ∉
        (monitorStep cfg2 side qty rec2 curr prev prev2 atr price hso).1) ∧
    (∀ (cfg2 : ExitCfg) (rec2 : SignalRec) (curr prev prev2 atr price : ℚ) (hso : Bool),
      rec2.exit_strategy = some "MOMENTUM" → rec2.partial_exit_done = true →
      check_momentum_exit side curr prev = true →
      monitorStep cfg2 side qty rec2 curr prev prev2 atr price hso =
        ([.close qty, .deactivate], { rec2 with is_active := false })) ∧
    (∀ (cfg2 : ExitCfg) (rec2 : SignalRec) (curr prev prev2 atr price : ℚ) (hso : Bool),
      rec2.exit_strategy = some "MOMENTUM" → rec2.partial_exit_done = true →
      check_momentum_exit side curr prev = false →
      ∀ q, ExitAct.close q ∉
        (monitorStep cfg2 side qty rec2 curr prev prev2 atr price hso).1) ∧
    (∀ curr prev : ℚ, prev ≤ curr → check_momentum_exit "LONG" curr prev = false) ∧
    (∀ curr prev : ℚ, curr ≤ prev → check_momentum_exit "SHORT" curr prev = false) ∧
    (∀ curr prev : ℚ, check_momentum_exit "LONG" curr prev = true ↔
      RSI_EXIT_TARGET ≤ curr ∧ curr < prev) ∧
    (∀ curr prev : ℚ, check_momentum_exit "SHORT" curr prev = true ↔
      curr ≤ RSI_EXIT_TARGET ∧ prev < curr) := by
  refine ⟨runTrace_flags_markFirst cfg side qty hE cycles rec hM hP hA,
    ?_, ?_, ?_, ?_, ?_, ?_, ?_⟩
  · intro cfg2 rec2 curr prev prev2 atr price hso hM2 hP2 hEarly
    by_cases hT : atTarget side curr = true
    · rw [monitorStep_eq_phase1 cfg2 side qty rec2 curr prev prev2 atr price hso
        hM2 hP2 hT]
      simp only [List.mem_append]
      rintro (h | h)
      · exact momentumPhase1_no_deactivate _ _ _ _ h
      · exact ratchetPhase_no_deactivate _ _ _ _ _ _ _ h
    · simp only [Bool.not_eq_true] at hT
      have heq : monitorStep cfg2 side qty rec2 curr prev prev2 atr price hso =
          ratchetPhase rec2.stop_loss_strategy (truthy rec2.stop_loss) atr price
            side hso rec2 := by
        unfold monitorStep
        rw [hEarly]
        simp [hM2, hP2, hT]
      rw [heq]
      exact ratchetPhase_no_deactivate _ _ _ _ _ _ _
  · intro cfg2 rec2 curr prev prev2 atr price hso hM2 hP2 hc
    unfold monitorStep
    rw [earlyExitCond_false_of_done hP2]
    simp [hM2, hP2, hc]
  · intro cfg2 rec2 curr prev prev2 atr price hso hM2 hP2 hc q
    have heq : monitorStep cfg2 side qty rec2 curr prev prev2 atr price hso =
        ratchetPhase rec2.stop_loss_strategy (truthy rec2.stop_loss) atr price
          side hso rec2 := by
      unfold monitorStep
      rw [earlyExitCond_false_of_done hP2]
      simp [hM2, hP2, hc]
    rw [heq]
    exact ratchetPhase_no_close _ _ _ _ _ _ _ _
  · intro curr prev h
    simp [check_momentum_exit, not_lt.mpr h]
  · intro curr prev h
    simp [check_momentum_exit, not_lt.mpr h]
  · intro curr prev
    simp [check_momentum_exit, ge_iff_le]
  · intro curr prev
    simp [check_momentum_exit]

/-- Witness for C2: a LONG MOMENTUM position monitored for three cycles with
RSI 45, 55, 60 — phase 1 fires exactly at the second cycle. -/
theorem C2_momentum_two_phases_witness :
    (runTrace ⟨false⟩ "LONG" 10
        { exit_strategy := some "MOMENTUM", stop_loss_strategy := none,
          stop_loss := none, fill_price := some 48, partial_exit_done := false,
          is_active := true }
        [⟨45, 44, 43, 1, 100, false⟩, ⟨55, 54, 53, 1, 100, false⟩,
         ⟨60, 59, 58, 1, 100, false⟩]).map
      (fun acts => decide (ExitAct.markPartialDone ∈ acts)) =
    markFirst (fun c : CycleIn => atTarget "LONG" c.curr)
      ([⟨45, 44, 43, 1, 100, false⟩, ⟨55, 54, 53, 1, 100, false⟩,
        ⟨60, 59, 58, 1, 100, false⟩] : List CycleIn) :=
  (C2_momentum_two_phases ⟨false⟩ "LONG" 10
    { exit_strategy := some "MOMENTUM", stop_loss_strategy := none,
      stop_loss := none, fill_price := some 48, partial_exit_done := false,
      is_active := true }
    [⟨45, 44, 43, 1, 100, false⟩, ⟨55, 54, 53, 1, 100, false⟩,
     ⟨60, 59, 58, 1, 100, false⟩]
    rfl rfl rfl rfl).1

/-! ## Claim C1 — the stop-loss ratchet invariant -/

/-- In a cycle where MOMENTUM phase 1 does not fire, the action list is
either a full close or the ratchet block's output. -/
lemma monitorStep_acts_no_phase1 (cfg : ExitCfg) (side : String) (qty : ℚ)
    (rec : SignalRec) (curr prev prev2 atr price : ℚ) (hso : Bool)
    (hnp1 : ¬(rec.exit_strategy = some "MOMENTUM" ∧ rec.partial_exit_done = false ∧
      atTarget side curr = true)) :
    (monitorStep cfg side qty rec curr prev prev2 atr price hso).1 =
      [ExitAct.close qty, ExitAct.deactivate] ∨
    (monitorStep cfg side qty rec curr prev prev2 atr price hso).1 =
      (ratchetPhase rec.stop_loss_strategy (truthy rec.stop_loss) atr price side
        hso rec).1 := by
  unfold monitorStep
  by_cases hEarly : earlyExitCond cfg side rec curr prev prev2 = true
  · left
    simp [hEarly]
  · simp only [Bool.not_eq_true] at hEarly
    by_cases hM : rec.exit_strategy = some "MOMENTUM"
    · have hguard : (!rec.partial_exit_done && atTarget side curr) = false := by
        cases hp : rec.partial_exit_done with
        | true => simp
        | false =>
          simp only [Bool.not_false, Bool.true_and]
          by_contra hT
          simp only [Bool.not_eq_false] at hT
          exact hnp1 ⟨hM, hp, hT⟩
      by_cases hc : (rec.partial_exit_done && check_momentum_exit side curr prev) = true
      · left
        simp [hEarly, hM, hguard, hc]
      · right
        simp only [Bool.not_eq_true] at hc
        simp [hEarly, hM, hguard, hc]
    · by_cases hT : atTarget side curr = true
      · left
        simp [hEarly, hM, hT]
      · right
        simp only [Bool.not_eq_true] at hT
        simp [hEarly, hM, hT]

/-- The stop writes of the ratchet block: none, or the single ratcheted
value computed from the stop read at the top of the cycle. -/
lemma stopWrites_ratchetPhase (slS : Option String) (st : Option ℚ)
    (a p : ℚ) (sd : String) (h : Bool) (rec : SignalRec) :
    stopWrites (ratchetPhase slS st a p sd h rec).1 = [] ∨
    ∃ s0, st = some s0 ∧
      stopWrites (ratchetPhase slS st a p sd h rec).1 =
        [calculate_ratchet_stop s0 a p sd] := by
  cases st with
  | none =>
    left
    by_cases hs : slS = some "ATR_TRAIL" <;> simp [ratchetPhase, hs, stopWrites]
  | some s =>
    by_cases hs : slS = some "ATR_TRAIL"
    · by_cases hne : calculate_ratchet_stop s a p sd = s
      · left
        simp [ratchetPhase, hs, hne, stopWrites]
      · right
        exact ⟨s, rfl, by cases h <;> simp [ratchetPhase, hs, hne, stopWrites]⟩
    · left
      simp [ratchetPhase, hs, stopWrites]

/-- **C1, counterexample.** The claim asserts that for an ATR_TRAIL position
with a stored stop, every `stop_loss` write in a monitoring cycle — including
the one after a MOMENTUM phase-1 break-even relocation — moves the stop in
the trade's favor (never down for LONG).  In fact the ratchet block reuses
the stop read at the top of the cycle, not the just-written break-even fill:
a LONG with stored stop 10, fill price 50, RSI 55 (phase 1 fires) and a
fresh ATR stop of 30 writes the sequence 50 then 30 — the persisted stop
drops from 50 to 30, moving against the trade. -/
theorem C1_ratchet_counterexample :
    stopWrites (monitorStep ⟨false⟩ "LONG" 10
      { exit_strategy := some "MOMENTUM", stop_loss_strategy := some "ATR_TRAIL",
        stop_loss := some 10, fill_price := some 50, partial_exit_done := false,
        is_active := true }
      55 0 0 1 33 false).1 = [50, 30] ∧
    ¬ List.Chain' (· ≤ ·) (stopWrites (monitorStep ⟨false⟩ "LONG" 10
      { exit_strategy := some "MOMENTUM", stop_loss_strategy := some "ATR_TRAIL",
        stop_loss := some 10, fill_price := some 50, partial_exit_done := false,
        is_active := true }
      55 0 0 1 33 false).1) := by
  have hT : atTarget "LONG" 55 = true := by
    simp [atTarget, RSI_EXIT_TARGET]
    norm_num
  have hw : stopWrites (monitorStep ⟨false⟩ "LONG" 10
      { exit_strategy := some "MOMENTUM", stop_loss_strategy := some "ATR_TRAIL",
        stop_loss := some 10, fill_price := some 50, partial_exit_done := false,
        is_active := true }
      55 0 0 1 33 false).1 = [50, 30] := by
    rw [monitorStep_eq_phase1 _ _ _ _ _ _ _ _ _ _ rfl rfl hT]
    have htr50 : truthy (some (50 : ℚ)) = some 50 := by norm_num [truthy]
    have htr10 : truthy (some (10 : ℚ)) = some 10 := by norm_num [truthy]
    have hfloor : ⌊(10 : ℚ) / 2⌋ = 5 := by norm_num
    have hr : calculate_ratchet_stop 10 1 33 "LONG" = 30 := by
      have : (33 : ℚ) - 1 * ATR_MULTIPLIER = 30 := by norm_num [ATR_MULTIPLIER]
      simp only [calculate_ratchet_stop, reduceIte, this]
      norm_num
    have hne : calculate_ratchet_stop 10 1 33 "LONG" ≠ 10 := by
      rw [hr]; norm_num
    simp only [htr50, htr10, momentumPhase1, hfloor, ratchetPhase, hr, hne]
    norm_num [stopWrites]
    simp [List.filterMap_cons]
  refine ⟨hw, ?_⟩
  rw [hw]
  simp only [List.chain'_cons, List.chain'_singleton, and_true]
  norm_num

/-- **C1, amended.** Each ratchet computation returns the more favorable of
its input stop and the freshly computed ATR stop (max for LONG, min for
SHORT), so it never moves against the trade relative to the stop read at the
top of the cycle; and in every monitoring cycle in which MOMENTUM phase 1
does not fire, the full sequence of persisted stop values (stored stop
followed by the cycle's writes) is monotone in the trade's favor.  (When
phase 1 fires in the same cycle, the subsequent ratchet write is computed
from the pre-cycle stored stop rather than the just-written break-even fill
price and can move the persisted stop against the trade — see the
counterexample.) -/
theorem C1_ratchet_favorable (s a p : ℚ) (cfg : ExitCfg) (side : String)
    (qty : ℚ) (rec : SignalRec) (curr prev prev2 atr price : ℚ) (hso : Bool)
    (hnp1 : ¬(rec.exit_strategy = some "MOMENTUM" ∧ rec.partial_exit_done = false ∧
      atTarget side curr = true)) :
    (s ≤ calculate_ratchet_stop s a p "LONG" ∧
      calculate_ratchet_stop s a p "LONG" = max s (p - a * ATR_MULTIPLIER)) ∧
    (calculate_ratchet_stop s a p "SHORT" ≤ s ∧
      calculate_ratchet_stop s a p "SHORT" = min s (p + a * ATR_MULTIPLIER)) ∧
    (side = "LONG" →
      List.Chain' (· ≤ ·) ((truthy rec.stop_loss).toList ++
        stopWrites (monitorStep cfg side qty rec curr prev prev2 atr price hso).1)) ∧
    (side = "SHORT" →
      List.Chain' (fun x y => y ≤ x) ((truthy rec.stop_loss).toList ++
        stopWrites (monitorStep cfg side qty rec curr prev prev2 atr price hso).1)) := by
  refine ⟨⟨?_, ?_⟩, ⟨?_, ?_⟩, ?_, ?_⟩
  · simp [calculate_ratchet_stop]
  · simp [calculate_ratchet_stop]
  · simp [calculate_ratchet_stop]
  · simp [calculate_ratchet_stop]
  · intro hside
    subst hside
    rcases monitorStep_acts_no_phase1 cfg "LONG" qty rec curr prev prev2 atr
      price hso hnp1 with h | h
    · rw [h]
      cases ht : truthy rec.stop_loss <;> simp [stopWrites]
    · rw [h]
      rcases stopWrites_ratchetPhase rec.stop_loss_strategy (truthy rec.stop_loss)
        atr price "LONG" hso rec with hz | ⟨s0, hst, hw⟩
      · rw [hz]
        cases ht : truthy rec.stop_loss <;> simp
      · rw [hw, hst]
        simp only [Option.toList_some, List.cons_append, List.nil_append,
          List.chain'_cons, List.chain'_singleton, and_true]
        simp [calculate_ratchet_stop]
  · intro hside
    subst hside
    rcases monitorStep_acts_no_phase1 cfg "SHORT" qty rec curr prev prev2 atr
      price hso hnp1 with h | h
    · rw [h]
      cases ht : truthy rec.stop_loss <;> simp [stopWrites]
    · rw [h]
      rcases stopWrites_ratchetPhase rec.stop_loss_strategy (truthy rec.stop_loss)
        atr price "SHORT" hso rec with hz | ⟨s0, hst, hw⟩
      · rw [hz]
        cases ht : truthy rec.stop_loss <;> simp
      · rw [hw, hst]
        simp only [Option.toList_some, List.cons_append, List.nil_append,
          List.chain'_cons, List.chain'_singleton, and_true]
        simp [calculate_ratchet_stop]

/-- Witness for C1 (amended): a LONG FIXED-exit ATR_TRAIL position below the
target with stored stop 10 and fresh ATR stop 30: the persisted stop chain
is monotone upward. -/
theorem C1_ratchet_favorable_witness :
    List.Chain' (· ≤ ·) ((truthy (some (10 : ℚ))).toList ++
      stopWrites (monitorStep ⟨false⟩ "LONG" 10
        { exit_strategy := some "FIXED", stop_loss_strategy := some "ATR_TRAIL",
          stop_loss := some 10, fill_price := some 50, partial_exit_done := false,
          is_active := true }
        40 0 0 1 33 false).1) :=
  (C1_ratchet_favorable 10 1 33 ⟨false⟩ "LONG" 10
    { exit_strategy := some "FIXED", stop_loss_strategy := some "ATR_TRAIL",
      stop_loss := some 10, fill_price := some 50, partial_exit_done := false,
      is_active := true }
    40 0 0 1 33 false (by simp)).2.2.1 rfl

/-! ## Claim C5 — the conjunctive validation gate -/

/-- **C5.** For a staged signal that passes the earnings and data-sufficiency
guards, `is_ready` flips true exactly when the daily RSI slope, the weekly
RSI slope and the MACD-line slope all agree with the direction; if the
conjunction fails the row is returned unchanged (no state change beyond the
debug trail); and a weekly series of fewer than 14 resampled points makes
the weekly slope test false, keeping `is_ready` false. -/
theorem C5_conjunctive_gate (rsiFn : List ℚ → List ℚ) (direction : String)
    (dLast dPrev : ℚ) (weeklyCloses : List ℚ) (mLast mPrev : ℚ)
    (sig : StagedSig) (hR : sig.is_ready = false) :
    ((validateStep false true direction dLast dPrev
        (calculate_weekly_rsi rsiFn weeklyCloses) mLast mPrev sig).is_ready = true ↔
      slopeTurning direction dLast dPrev = true ∧
      w_rsi_turning direction (calculate_weekly_rsi rsiFn weeklyCloses) = true ∧
      slopeTurning direction mLast mPrev = true) ∧
    (¬(slopeTurning direction dLast dPrev = true ∧
        w_rsi_turning direction (calculate_weekly_rsi rsiFn weeklyCloses) = true ∧
        slopeTurning direction mLast mPrev = true) →
      validateStep false true direction dLast dPrev
        (calculate_weekly_rsi rsiFn weeklyCloses) mLast mPrev sig = sig) ∧
    (weeklyCloses.length < RSI_PERIOD →
      calculate_weekly_rsi rsiFn weeklyCloses = none ∧
      w_rsi_turning direction (calculate_weekly_rsi rsiFn weeklyCloses) = false ∧
      (validateStep false true direction dLast dPrev
        (calculate_weekly_rsi rsiFn weeklyCloses) mLast mPrev sig).is_ready = false) := by
  set wk := calculate_weekly_rsi rsiFn weeklyCloses with hwk
  refine ⟨?_, ?_, ?_⟩
  · by_cases hc : (slopeTurning direction dLast dPrev &&
        w_rsi_turning direction wk && slopeTurning direction mLast mPrev) = true
    · simp only [Bool.and_eq_true] at hc
      simp [validateStep, hc.1.1, hc.1.2, hc.2]
    · simp only [Bool.and_eq_true, not_and] at hc
      constructor
      · intro habs
        exfalso
        by_cases h1 : slopeTurning direction dLast dPrev = true
        · by_cases h2 : w_rsi_turning direction wk = true
          · by_cases h3 : slopeTurning direction mLast mPrev = true
            · exact hc ⟨h1, h2⟩ h3
            · simp only [Bool.not_eq_true] at h3
              simp [validateStep, h1, h2, h3, hR] at habs
          · simp only [Bool.not_eq_true] at h2
            simp [validateStep, h1, h2, hR] at habs
        · simp only [Bool.not_eq_true] at h1
          simp [validateStep, h1, hR] at habs
      · rintro ⟨h1, h2, h3⟩
        exact absurd (hc ⟨h1, h2⟩) (by simp [h3])
  · intro h
    have hc : (slopeTurning direction dLast dPrev &&
        w_rsi_turning direction wk && slopeTurning direction mLast mPrev) = false := by
      by_contra hb
      simp only [Bool.not_eq_false, Bool.and_eq_true] at hb
      exact h ⟨hb.1.1, hb.1.2, hb.2⟩
    simp only [Bool.and_eq_true, Bool.and_eq_false_iff] at hc
    rcases hc with (h1 | h2) | h3
    · simp [validateStep, h1]
    · simp [validateStep, h2]
    · simp [validateStep, h3]
  · intro hlen
    have hnone : wk = none := by
      rw [hwk]
      simp [calculate_weekly_rsi, hlen]
    refine ⟨hnone, by rw [hnone]; rfl, ?_⟩
    have hw : w_rsi_turning direction wk = false := by rw [hnone]; rfl
    simp [validateStep, hw, hR]

/-- Witness for C5: a LONG staged signal with rising daily RSI (1 → 2), a
14-point weekly series rising at the end, and rising MACD line (2 → 3) is
marked ready. -/
theorem C5_conjunctive_gate_witness :
    (validateStep false true "LONG" 2 1
      (calculate_weekly_rsi (fun l => l)
        [0, 0, 0, 0, 0, 0, 0, 0, 0, 0, 0, 0, 1, 2]) 3 2
      { is_ready := false, trailEvent := none }).is_ready = true :=
  ((C5_conjunctive_gate (fun l => l) "LONG" 2 1
      [0, 0, 0, 0, 0, 0, 0, 0, 0, 0, 0, 0, 1, 2] 3 2
      { is_ready := false, trailEvent := none } rfl).1).mpr
    ⟨by decide, by decide, by decide⟩

/-! ## Claim C6 — removal of invalidated signals -/

/-- **C6.** The claim says a never-entered Signal whose RSI drifts back past
the momentum-room threshold is deleted from the signal store.  The code does
not: at entry time the room check merely `continue`s — a LONG with RSI 46
(> 45) produces no watchlist writes at all, in particular no delete — and
the scanner validation step only ever returns the row unchanged or marks it
ready; the sole delete in the codebase is the 60-day expiry sweep.  (The
comments in `config.py` and `db_utils.py` assert the scanner performs an
RSI-based delete, so the code contradicts its own documentation.) -/
theorem C6_rsi_drift_only_skips :
    enterRoomBlocked "LONG" 46 = true ∧
    enterSignalStep "LONG" 46 (some 40) 100000 50 45 "FIXED_WHOLE" = some [] ∧
    (∀ acts, enterSignalStep "LONG" 46 (some 40) 100000 50 45 "FIXED_WHOLE" =
        some acts → EnterAct.deleteSignal ∉ acts) ∧
    (∀ (eb ed : Bool) (direction : String) (dL dP : ℚ)
        (wk : Option (List ℚ)) (mL mP : ℚ) (sig : StagedSig),
      validateStep eb ed direction dL dP wk mL mP sig = sig ∨
      validateStep eb ed direction dL dP wk mL mP sig =
        { is_ready := true, trailEvent := some "Alignments Confirmed" }) := by
  have hblocked : enterRoomBlocked "LONG" 46 = true := by
    simp [enterRoomBlocked, RSI_MOMENTUM_ROOM_LONG]
    norm_num
  have hstep : enterSignalStep "LONG" 46 (some 40) 100000 50 45 "FIXED_WHOLE" =
      some [] := by
    simp [enterSignalStep, hblocked]
  refine ⟨hblocked, hstep, ?_, ?_⟩
  · intro acts hacts
    rw [hstep] at hacts
    cases hacts
    simp
  · intro eb ed direction dL dP wk mL mP sig
    unfold validateStep
    by_cases heb : eb = true
    · left; simp [heb]
    · simp only [Bool.not_eq_true] at heb
      by_cases hed : ed = true
      · by_cases hc : (slopeTurning direction dL dP && w_rsi_turning direction wk &&
            slopeTurning direction mL mP) = true
        · right; simp [heb, hed, hc]
        · left
          simp only [Bool.not_eq_true] at hc
          simp [heb, hed, hc]
      · left
        simp only [Bool.not_eq_true] at hed
        simp [heb, hed]

/-- Witness for C6: the skipped entry's (empty) action list holds no delete,
and the validation step leaves a concrete unready row unchanged. -/
theorem C6_rsi_drift_only_skips_witness :
    EnterAct.deleteSignal ∉ ([] : List EnterAct) ∧
    (validateStep false true "LONG" 1 2 none 1 2
        { is_ready := false, trailEvent := none } =
        { is_ready := false, trailEvent := none } ∨
     validateStep false true "LONG" 1 2 none 1 2
        { is_ready := false, trailEvent := none } =
        { is_ready := true, trailEvent := some "Alignments Confirmed" }) :=
  ⟨C6_rsi_drift_only_skips.2.2.1 [] rfl,
   C6_rsi_drift_only_skips.2.2.2 false true "LONG" 1 2 none 1 2
     { is_ready := false, trailEvent := none }⟩

/-! ## Claim C7 — extreme-price monotonicity -/

/-- **C7, counterexample.** The claim extends the monotonicity invariant to
the discovery upsert.  In fact `populate_sid_extremes` overwrites
`extreme_price` with the latest touch bar's low/high unconditionally: a LONG
signal storing extreme 10 that re-touches RSI 25 on a bar with low 12 gets
its extreme overwritten to 12, which is greater than the pre-update value —
a regression toward entry that contradicts "post-update ≤ pre-update for
LONG". -/
theorem C7_extreme_upsert_counterexample :
    discoveryDirection 25 = some "LONG" ∧
    discoveryUpsertExtreme 25 12 13 = some 12 ∧
    upsertPostExtreme (some 10) 12 = 12 ∧
    ¬ ((12 : ℚ) ≤ 10) := by
  have hdir : discoveryDirection 25 = some "LONG" := by
    simp [discoveryDirection, RSI_EXTREME_OVERSOLD]
    norm_num
  refine ⟨hdir, ?_, rfl, by norm_num⟩
  simp [discoveryUpsertExtreme, hdir]

/-- **C7, amended.** The per-cycle extreme tracker
(`update_staged_extreme_prices`) is monotone: with a (truthy) stored extreme
`s`, the post-update value never exceeds `s` for LONG and never falls below
`s` for SHORT.  The discovery upsert, by contrast, resets `extreme_price` to
the touch bar's low/high regardless of the stored value (see the
counterexample). -/
theorem C7_tracker_monotone (direction : String) (stored : Option ℚ)
    (high low s n : ℚ) (hs : truthy stored = some s) :
    (direction = "LONG" → (trackerStep direction stored high low).1 = some n →
      n ≤ s) ∧
    (direction = "SHORT" → (trackerStep direction stored high low).1 = some n →
      s ≤ n) := by
  cases stored with
  | none => simp [truthy] at hs
  | some s0 =>
    by_cases hz : s0 = 0
    · simp [truthy, hz] at hs
    · have hs0 : s0 = s := by
        simp [truthy, hz] at hs
        exact hs
      subst hs0
      constructor
      · intro hdir hpost
        subst hdir
        by_cases hlt : low < s0
        · simp only [trackerStep, truthy, hz, if_false, reduceIte, hlt] at hpost
          simp only [Option.some.injEq] at hpost
          subst hpost
          exact le_of_lt hlt
        · simp only [trackerStep, truthy, hz, if_false, reduceIte, hlt] at hpost
          simp only [Option.some.injEq] at hpost
          subst hpost
          exact le_refl _
      · intro hdir hpost
        subst hdir
        have hne : ("SHORT" : String) ≠ "LONG" := by decide
        by_cases hgt : high > s0
        · simp only [trackerStep, truthy, hz, hne, if_false, reduceIte, hgt] at hpost
          simp only [Option.some.injEq] at hpost
          subst hpost
          exact le_of_lt hgt
        · simp only [trackerStep, truthy, hz, hne, if_false, reduceIte, hgt] at hpost
          simp only [Option.some.injEq] at hpost
          subst hpost
          exact le_refl _

/-- Witness for C7 (amended): a LONG with stored extreme 10 and a new bar
low of 8 updates to 8 ≤ 10. -/
theorem C7_tracker_monotone_witness :
    (trackerStep "LONG" (some 10) 20 8).1 = some 8 ∧ (8 : ℚ) ≤ 10 :=
  ⟨by decide, (C7_tracker_monotone "LONG" (some 10) 20 8 10 8 (by decide)).1
    rfl (by decide)⟩

end Sidbot
